import Mathlib

/-!
Shallow embedding of the stack-detection core (`src/core/detectors.py`) and the
env-file scanner (`src/core/utils.py`) of the ci_cd_hacaton repository, with
theorems settling the behavioural claims about them.

Modelling conventions:
* A repository directory is a `Repo`: its directory name plus the list of
  filesystem entries under it (relative paths, each entry a file or a
  directory).  A file's content is an `Option String`: `some s` is the text
  obtained by `read_text(encoding="utf-8", errors="ignore")`, `none` means the
  OS read of the file's bytes raises (e.g. permission denied) — the failure
  mode that `_file_contains`'s `try/except` in the source guards against.
* Python `str.lower` is modelled as ASCII lowering (`pyLower`); all strings the
  program compares are ASCII, where the two agree.
* `Path.rglob(pattern)` with a single-component pattern matches the final name
  component of every entry at any depth, files and directories alike (pathlib
  does not special-case hidden files); a pattern with a trailing `/` matches
  directories only.  Glob syntax is fnmatch: `*`, `?`, and `[...]`/`[!...]`
  single-character classes.
* `detect_stack` raising is modelled with `Except DetectError`:
  `invalidInput` is the `ValueError` for a bad path, `osReadError` is an OS
  error escaping an unguarded `read_text` call.
-/

namespace CICD

/-- ASCII lowering of one character, as Python `str.lower` acts on ASCII. -/
def lowerChar (c : Char) : Char :=
  if 65 ≤ c.toNat && c.toNat ≤ 90 then Char.ofNat (c.toNat + 32) else c

/-- Model of Python `str.lower()` (ASCII range; the program only lowers ASCII). -/
def pyLower (s : String) : String := ⟨s.toList.map lowerChar⟩

/-- Replace every non-overlapping occurrence of `old` (non-empty) left to
right, fuel-driven so it evaluates in the kernel.  Fuel `s.length` suffices
because every step consumes at least one character of `s`. -/
def replaceListF : Nat → List Char → List Char → List Char → List Char
  | 0, _, _, s => s
  | _, _, _, [] => []
  | fuel + 1, old, new, c :: cs =>
    if old.isPrefixOf (c :: cs) then
      new ++ replaceListF fuel old new (List.drop (old.length - 1) cs)
    else
      c :: replaceListF fuel old new cs

/-- Model of Python `str.replace(old, new)` for non-empty `old` (the source
never calls it with an empty pattern). -/
def pyReplace (s old new : String) : String :=
  if old.toList.isEmpty then s
  else ⟨replaceListF s.toList.length old.toList new.toList s.toList⟩

/-- `needle` occurs as a contiguous substring of `hay`. -/
def listIsSub (needle : List Char) : List Char → Bool
  | [] => needle.isEmpty
  | c :: rest => needle.isPrefixOf (c :: rest) || listIsSub needle rest

/-- Model of Python `needle in hay` on strings (substring containment). -/
def strContains (hay needle : String) : Bool := listIsSub needle.toList hay.toList

/-- `s` ends with `suf`. -/
def strEndsWith (s suf : String) : Bool := suf.toList.isSuffixOf s.toList

/-- One token of a parsed fnmatch pattern. -/
inductive GTok where
  | lit (c : Char)
  | star
  | anyOne
  | cls (neg : Bool) (cs : List Char)

/-- Split a character list at the first `]`, returning the part before it and
the rest after it; `none` when there is no `]` (fnmatch then treats the `[`
literally). -/
def splitAtRB : List Char → Option (List Char × List Char)
  | [] => none
  | c :: rest =>
    if c = ']' then some ([], rest)
    else
      match splitAtRB rest with
      | some (cs, r) => some (c :: cs, r)
      | none => none

/-- Fuel-driven fnmatch pattern parser (`*`, `?`, `[...]`, `[!...]`). -/
def parsePatF : Nat → List Char → List GTok
  | 0, _ => []
  | _, [] => []
  | fuel + 1, c :: rest =>
    if c = '*' then GTok.star :: parsePatF fuel rest
    else if c = '?' then GTok.anyOne :: parsePatF fuel rest
    else if c = '[' then
      match rest with
      | '!' :: rest2 =>
        match splitAtRB rest2 with
        | some (cs, r) => GTok.cls true cs :: parsePatF fuel r
        | none => GTok.lit '[' :: parsePatF fuel rest
      | _ =>
        match splitAtRB rest with
        | some (cs, r) => GTok.cls false cs :: parsePatF fuel r
        | none => GTok.lit '[' :: parsePatF fuel rest
    else GTok.lit c :: parsePatF fuel rest

/-- Parse an fnmatch pattern into tokens. -/
def parsePat (l : List Char) : List GTok := parsePatF l.length l

/-- Fuel-driven fnmatch matcher over parsed tokens.  Fuel
`ps.length + s.length + 1` suffices: every step shrinks `ps.length + s.length`. -/
def gMatchF : Nat → List GTok → List Char → Bool
  | 0, _, _ => false
  | _ + 1, [], [] => true
  | _ + 1, [], _ :: _ => false
  | fuel + 1, GTok.star :: ps, [] => gMatchF fuel ps []
  | fuel + 1, GTok.star :: ps, c :: cs =>
    gMatchF fuel ps (c :: cs) || gMatchF fuel (GTok.star :: ps) cs
  | _ + 1, GTok.anyOne :: _, [] => false
  | fuel + 1, GTok.anyOne :: ps, _ :: cs => gMatchF fuel ps cs
  | _ + 1, GTok.lit _ :: _, [] => false
  | fuel + 1, GTok.lit a :: ps, c :: cs => a == c && gMatchF fuel ps cs
  | _ + 1, GTok.cls _ _ :: _, [] => false
  | fuel + 1, GTok.cls neg chars :: ps, c :: cs =>
    (if neg then !(chars.contains c) else chars.contains c) && gMatchF fuel ps cs

/-- Match parsed tokens against a full name (anchored at both ends, as fnmatch is). -/
def gMatch (ps : List GTok) (s : List Char) : Bool :=
  gMatchF (ps.length + s.length + 1) ps s

/-- fnmatch a glob pattern against one name component. -/
def globMatchStr (pattern nm : String) : Bool :=
  gMatch (parsePat pattern.toList) nm.toList

/-! ## Filesystem model -/

/-- A path relative to the repository root, as name components. -/
abbrev PathParts := List String

/-- One filesystem entry below the repository root.  A file's content is
`some s` when `read_text(..., errors="ignore")` would return `s`, and `none`
when reading the file's bytes raises an OS error. -/
inductive Entry where
  | file (path : PathParts) (content : Option String)
  | dir (path : PathParts)
deriving DecidableEq

/-- The path of an entry. -/
def Entry.path : Entry → PathParts
  | .file p _ => p
  | .dir p => p

/-- Whether an entry is a directory. -/
def Entry.isDir : Entry → Bool
  | .file _ _ => false
  | .dir _ => true

/-- A repository directory: its own name and the entries below it. -/
structure Repo where
  name : String
  entries : List Entry
deriving DecidableEq

/-- Whether `Path.rglob(pattern)` (single-component pattern) yields this
entry: its final name component matches the pattern, at any depth; a trailing
`/` on the pattern restricts the match to directories. -/
def matchesRGlob (e : Entry) (pattern : String) : Bool :=
  if strEndsWith pattern "/" then
    e.isDir &&
      (match e.path.getLast? with
       | some nm => globMatchStr ⟨pattern.toList.dropLast⟩ nm
       | none => false)
  else
    match e.path.getLast? with
    | some nm => globMatchStr pattern nm
    | none => false

/-- `detectors._has_file`: at least one entry anywhere under the root matches
the glob pattern (recursive search, `any(repo.rglob(pattern))`). -/
def _has_file (repo : Repo) (pattern : String) : Bool :=
  repo.entries.any (fun e => matchesRGlob e pattern)

/-- `detectors._file_exists`: a file with this exact name exists directly in
the root directory (`repo.joinpath(filename).is_file()`). -/
def _file_exists (repo : Repo) (filename : String) : Bool :=
  repo.entries.any (fun e =>
    match e with
    | .file p _ => p == [filename]
    | .dir _ => false)

/-- Look up the root-level file named `filename`: `none` when no such file
exists, `some c` with `c` its content record otherwise. -/
def readRootFile (repo : Repo) (filename : String) : Option (Option String) :=
  repo.entries.findSome? (fun e =>
    match e with
    | .file p c => if p == [filename] then some c else none
    | .dir _ => none)

/-- `detectors._file_contains`: safely read a root file and test
case-insensitively whether it contains the substring; a missing file or any
read error yields `false` (the `try/except` in the source). -/
def _file_contains (repo : Repo) (filename substring : String) : Bool :=
  match readRootFile repo filename with
  | some (some content) => strContains (pyLower content) (pyLower substring)
  | _ => false

/-- `detectors._pyproject_has_tool`: `pyproject.toml` exists at the root and
contains the `[tool.<tool_name>]` section marker. -/
def _pyproject_has_tool (repo : Repo) (tool_name : String) : Bool :=
  _file_exists repo "pyproject.toml" &&
    _file_contains repo "pyproject.toml" ("[tool." ++ tool_name ++ "]")

/-! ## Stack detectors -/

/-- `detectors._detect_docker`. -/
def _detect_docker (repo : Repo) : Bool :=
  _has_file repo "Dockerfile" || _has_file repo "dockerfile"

/-- `detectors._detect_node_npm`. -/
def _detect_node_npm (repo : Repo) : Bool :=
  _file_exists repo "package.json" &&
    !(_file_exists repo "yarn.lock" ||
      _file_exists repo "pnpm-lock.yaml" ||
      _file_exists repo "bun.lockb")

/-- `detectors._detect_node_yarn`. -/
def _detect_node_yarn (repo : Repo) : Bool :=
  _file_exists repo "yarn.lock"

/-- `detectors._detect_node_pnpm`. -/
def _detect_node_pnpm (repo : Repo) : Bool :=
  _file_exists repo "pnpm-lock.yaml" || _file_exists repo "pnpm-workspace.yaml"

/-- `detectors._detect_node_bun`. -/
def _detect_node_bun (repo : Repo) : Bool :=
  _file_exists repo "bun.lockb"

/-- `detectors._detect_deno`. -/
def _detect_deno (repo : Repo) : Bool :=
  _has_file repo "deno.json*" || _has_file repo "import_map.json"

/-- `detectors._detect_python_uv`. -/
def _detect_python_uv (repo : Repo) : Bool :=
  _pyproject_has_tool repo "uv"

/-- `detectors._detect_python_pdm`. -/
def _detect_python_pdm (repo : Repo) : Bool :=
  _pyproject_has_tool repo "pdm"

/-- `detectors._detect_python_poetry`. -/
def _detect_python_poetry (repo : Repo) : Bool :=
  _pyproject_has_tool repo "poetry"

/-- `detectors._detect_python_pipenv`. -/
def _detect_python_pipenv (repo : Repo) : Bool :=
  _file_exists repo "Pipfile" || _file_exists repo "Pipfile.lock"

/-- `detectors._detect_python_pip`. -/
def _detect_python_pip (repo : Repo) : Bool :=
  _has_file repo "requirements*.txt" ||
    _file_exists repo "setup.py" || _file_exists repo "setup.cfg"

/-- `detectors._detect_go`. -/
def _detect_go (repo : Repo) : Bool :=
  _file_exists repo "go.mod"

/-- `detectors._detect_rust`. -/
def _detect_rust (repo : Repo) : Bool :=
  _file_exists repo "Cargo.toml"

/-- `detectors._detect_java_maven`. -/
def _detect_java_maven (repo : Repo) : Bool :=
  _file_exists repo "pom.xml"

/-- `detectors._detect_java_gradle`. -/
def _detect_java_gradle (repo : Repo) : Bool :=
  _has_file repo "*.gradle" || _has_file repo "*.gradle.kts" ||
    _file_exists repo "gradlew" || _file_exists repo "settings.gradle.kts"

/-- `detectors._detect_dotnet`. -/
def _detect_dotnet (repo : Repo) : Bool :=
  _has_file repo "*.csproj" || _has_file repo "*.fsproj"

/-- `detectors._detect_php_composer`. -/
def _detect_php_composer (repo : Repo) : Bool :=
  _file_exists repo "composer.json"

/-- `detectors._detect_elixir`. -/
def _detect_elixir (repo : Repo) : Bool :=
  _file_exists repo "mix.exs"

/-- `detectors._detect_ruby`. -/
def _detect_ruby (repo : Repo) : Bool :=
  _file_exists repo "Gemfile"

/-- `detectors._detect_flutter`. -/
def _detect_flutter (repo : Repo) : Bool :=
  _file_exists repo "pubspec.yaml"

/-- `(stack_name, template_name, detector_func)` as in the source's `StackInfo`. -/
abbrev StackInfo := String × String × (Repo → Bool)

/-- `detectors.STACK_PRIORITY`: the ordered priority table, first match wins. -/
def STACK_PRIORITY : List StackInfo := [
  ("docker",          "docker.yml.j2",          _detect_docker),
  ("node-bun",        "node-bun.yml.j2",        _detect_node_bun),
  ("node-pnpm",       "node-pnpm.yml.j2",       _detect_node_pnpm),
  ("node-yarn",       "node-yarn.yml.j2",       _detect_node_yarn),
  ("node-npm",        "node-npm.yml.j2",        _detect_node_npm),
  ("deno",            "deno.yml.j2",            _detect_deno),
  ("python-uv",       "python-uv.yml.j2",       _detect_python_uv),
  ("python-pdm",      "python-pdm.yml.j2",      _detect_python_pdm),
  ("python-poetry",   "python-poetry.yml.j2",   _detect_python_poetry),
  ("python-pipenv",   "python-pipenv.yml.j2",   _detect_python_pipenv),
  ("python-pip",      "python-pip.yml.j2",      _detect_python_pip),
  ("elixir",          "elixir.yml.j2",          _detect_elixir),
  ("ruby",            "ruby.yml.j2",            _detect_ruby),
  ("flutter",         "flutter.yml.j2",         _detect_flutter),
  ("java-maven",      "java-maven.yml.j2",      _detect_java_maven),
  ("java-gradle",     "java-gradle.yml.j2",     _detect_java_gradle),
  ("dotnet",          "dotnet.yml.j2",          _detect_dotnet),
  ("go",              "go.yml.j2",              _detect_go),
  ("rust",            "rust.yml.j2",            _detect_rust),
  ("php-composer",    "php-composer.yml.j2",    _detect_php_composer)]

/-! ## Context builder and resolver -/

/-- The context dictionary built for the Jinja2 template; `none` models the
Python `None` ("absent"). -/
structure BuildContext where
  project_name : String
  has_docker : Bool
  docker_tag : String
  install_cmd : Option String
  build_cmd : Option String
  test_cmd : Option String
  artifact_path : Option String
deriving DecidableEq

/-- The errors `detect_stack` can raise: the `ValueError` for a path that does
not exist or is not a directory, and an OS error escaping the unguarded
`read_text` in the node-npm branch of `_build_context`. -/
inductive DetectError where
  | invalidInput
  | osReadError
deriving DecidableEq

/-- `detectors._build_context`: the common fields, then the per-stack `match`.
The node-npm branch reads `package.json` with no `try/except`, so a missing or
unreadable file there raises (modelled as `.error .osReadError`). -/
def _build_context (repo : Repo) (stack : String) : Except DetectError BuildContext :=
  let ctx : BuildContext := {
    project_name := pyReplace (pyReplace (pyLower repo.name) " " "-") "_" "-",
    has_docker := _detect_docker repo,
    docker_tag := pyLower repo.name ++ ":latest",
    install_cmd := none,
    build_cmd := none,
    test_cmd := none,
    artifact_path := none }
  match stack with
  | "docker" =>
    .ok { ctx with build_cmd := some "docker build -t $\x7b\x7b steps.meta.outputs.tags \x7d\x7d ." }
  | "node-npm" =>
    match readRootFile repo "package.json" with
    | some (some pkg_content) =>
      .ok { ctx with
        install_cmd := some "npm ci --prefer-offline",
        build_cmd := if strContains pkg_content "\"build\"" then some "npm run build" else none,
        test_cmd := if strContains pkg_content "\"test\"" then some "npm test" else none }
    | _ => .error .osReadError
  | "node-yarn" => .ok { ctx with install_cmd := some "yarn install --frozen-lockfile" }
  | "node-pnpm" => .ok { ctx with install_cmd := some "pnpm i --frozen-lockfile" }
  | "node-bun" => .ok { ctx with install_cmd := some "bun install --frozen-lockfile" }
  | "deno" =>
    .ok { ctx with install_cmd := some "deno cache main.ts", test_cmd := some "deno test" }
  | "python-uv" =>
    .ok { ctx with
      install_cmd := some "uv sync --frozen",
      test_cmd := if _has_file repo "*test*.py" || _has_file repo "tests/" then
          some "uv run pytest" else none,
      build_cmd := if _pyproject_has_tool repo "uv" then some "uv build" else none }
  | "python-pdm" =>
    .ok { ctx with
      install_cmd := some "pdm sync --no-editable", test_cmd := some "pdm run pytest" }
  | "python-poetry" =>
    .ok { ctx with
      install_cmd := some "poetry install --no-interaction --no-root",
      build_cmd := some "poetry build",
      test_cmd := some "poetry run pytest" }
  | "python-pipenv" =>
    .ok { ctx with install_cmd := some "pipenv install --deploy --ignore-pipfile" }
  | "python-pip" => .ok { ctx with install_cmd := some "pip install -r requirements.txt" }
  | "go" =>
    .ok { ctx with
      install_cmd := some "go mod download",
      build_cmd := some "go build -o app .",
      test_cmd := some "go test ./..." }
  | "rust" =>
    .ok { ctx with
      build_cmd := some "cargo build --release", test_cmd := some "cargo test" }
  | "dotnet" =>
    .ok { ctx with
      install_cmd := some "dotnet restore",
      build_cmd := some "dotnet publish -c Release -o out",
      artifact_path := some "out" }
  | "php-composer" =>
    .ok { ctx with install_cmd := some "composer install --no-dev --optimize-autoloader" }
  | "elixir" =>
    .ok { ctx with install_cmd := some "mix deps.get", test_cmd := some "mix test" }
  | "ruby" => .ok { ctx with install_cmd := some "bundle install --frozen" }
  | "flutter" =>
    .ok { ctx with
      install_cmd := some "flutter pub get",
      build_cmd := some "flutter build apk --release" }
  | _ => .ok ctx

/-- The resolver's return record. -/
structure StackResult where
  stack : String
  template : String
  context : BuildContext
deriving DecidableEq

/-- `detectors.detect_stack`.  The input is `none` when the given path does
not exist or is not a directory (then the `ValueError` is raised before any
predicate runs); otherwise the first detector in `STACK_PRIORITY` that fires
wins, and if none fires the "unknown" fallback result is returned.  Note the
fallback derives `project_name` with only the space replacement (the source's
fallback lacks the underscore replacement `_build_context` performs). -/
def detect_stack (input : Option Repo) : Except DetectError StackResult :=
  match input with
  | none => .error .invalidInput
  | some repo =>
    match STACK_PRIORITY.find? (fun si => si.2.2 repo) with
    | some si =>
      (_build_context repo si.1).map (fun ctx =>
        { stack := si.1, template := si.2.1, context := ctx })
    | none =>
      .ok {
        stack := "unknown",
        template := "unknown.yml.j2",
        context := {
          project_name := pyReplace (pyLower repo.name) " " "-",
          has_docker := _detect_docker repo,
          docker_tag := pyLower repo.name ++ ":latest",
          install_cmd := none,
          build_cmd := none,
          test_cmd := none,
          artifact_path := none } }

/-! ## Env-file scanner (`src/core/utils.py`) -/

/-- Split a character list on a separator character (keeping empty pieces),
as iterating a file's lines and stripping does. -/
def splitOnChar (sep : Char) : List Char → List (List Char)
  | [] => [[]]
  | c :: rest =>
    match splitOnChar sep rest with
    | [] => [[]]
    | cur :: done => if c = sep then [] :: cur :: done else (c :: cur) :: done

/-- Whitespace characters removed by Python `str.strip()` (ASCII range). -/
def isSpaceChar (c : Char) : Bool :=
  c = ' ' || c = '\t' || c = '\n' || c = '\x0d' || c = '\x0b' || c = '\x0c'

/-- Model of Python `str.strip()`: drop leading and trailing whitespace. -/
def pyStrip (l : List Char) : List Char :=
  ((l.dropWhile isSpaceChar).reverse.dropWhile isSpaceChar).reverse

/-- Split a line at its first `=`: `line.split("=", 1)`. -/
def splitFirstEq : List Char → Option (List Char × List Char)
  | [] => none
  | c :: rest =>
    if c = '=' then some ([], rest)
    else (splitFirstEq rest).map (fun p => (c :: p.1, p.2))

/-- Insert key→value into an insertion-ordered map, overwriting an existing
key in place, as a Python dict does. -/
def dictInsert (m : List (String × String)) (k v : String) : List (String × String) :=
  if m.any (fun kv => kv.1 = k) then
    m.map (fun kv => if kv.1 = k then (k, v) else kv)
  else m ++ [(k, v)]

/-- `utils.parse_env_example`: parse an example env file line by line; a
missing or unreadable file (`none`) yields the empty map (the `try/except`
in the source). -/
def parse_env_example (content : Option String) : List (String × String) :=
  match content with
  | none => []
  | some s =>
    (splitOnChar '\n' s.toList).foldl (fun m rawLine =>
      let line := pyStrip rawLine
      if line.isEmpty then m
      else if line.head? = some '#' then m
      else
        match splitFirstEq line with
        | some (k, v) => dictInsert m ⟨pyStrip k⟩ ⟨pyStrip v⟩
        | none => m) []

/-- All entries matched by `Path(repo).rglob(pattern)`, in entry order. -/
def rglobMatches (repo : Repo) (pattern : String) : List PathParts :=
  (repo.entries.filter (fun e => matchesRGlob e pattern)).map Entry.path

/-- The final name component of a path. -/
def lastName (p : PathParts) : String := p.getLast?.getD ""

/-- Read the file at an arbitrary path under the root. -/
def readFileAt (repo : Repo) (p : PathParts) : Option String :=
  match repo.entries.findSome? (fun e =>
    match e with
    | .file q c => if q == p then some c else none
    | .dir _ => none) with
  | some c => c
  | none => none

/-- The result record of `utils.find_env_files`; `examples` models the
`"example"` key and `vars` the `"variables"` key. -/
structure EnvScan where
  danger : List PathParts
  examples : List PathParts
  vars : List (String × List (String × String))
deriving DecidableEq

/-- `utils.find_env_files`: collect danger files by the patterns
`*.env` and `*.env.*[!example]`, example files by `*.env.example` and
`*.env.*.example`, then parse each example file. -/
def find_env_files (repo : Repo) : EnvScan :=
  let danger := rglobMatches repo "*.env" ++ rglobMatches repo "*.env.*[!example]"
  let example_files := rglobMatches repo "*.env.example" ++ rglobMatches repo "*.env.*.example"
  let vs := example_files.map (fun p => (lastName p, parse_env_example (readFileAt repo p)))
  { danger := danger, examples := example_files, vars := vs }

/-! ## Helper lemmas -/

/-- List form: a successful root-file lookup witnesses a matching file entry. -/
theorem findSome?_root_aux (f : String) :
    ∀ (l : List Entry) (c : Option String),
      l.findSome? (fun e =>
          match e with
          | Entry.file p c0 => if p == [f] then some c0 else none
          | Entry.dir _ => none) = some c →
      l.any (fun e =>
          match e with
          | Entry.file p _ => p == [f]
          | Entry.dir _ => false) = true := by
  intro l
  induction l with
  | nil => intro c h; simp [List.findSome?] at h
  | cons e rest ih =>
    intro c h
    rw [List.findSome?_cons] at h
    rw [List.any_cons]
    rcases e with ⟨p, c0⟩ | p
    · by_cases hp : (p == [f]) = true
      · simp [hp]
      · simp only [Bool.not_eq_true] at hp
        simp only [hp, Bool.false_eq_true, if_false] at h
        simp only [hp, Bool.false_or]
        exact ih c h
    · simp only at h
      simp only [Bool.false_or]
      exact ih c h

/-- A root file that can be looked up exists as a root file. -/
theorem readRootFile_file_exists {repo : Repo} {f : String} {c : Option String}
    (h : readRootFile repo f = some c) : _file_exists repo f = true :=
  findSome?_root_aux f repo.entries c h

/-- Every stack name in the priority table differs from "unknown". -/
theorem priority_fst_ne_unknown : ∀ si ∈ STACK_PRIORITY, si.1 ≠ "unknown" := by
  intro si h
  fin_cases h <;> decide

/-- Whatever stack branch runs, `_build_context` keeps the common
`project_name` (lowercased, spaces and underscores folded to hyphens). -/
theorem build_context_project_name {repo : Repo} {stack : String} {ctx : BuildContext}
    (h : _build_context repo stack = .ok ctx) :
    ctx.project_name = pyReplace (pyReplace (pyLower repo.name) " " "-") "_" "-" := by
  unfold _build_context at h
  split at h
  all_goals try split at h
  all_goals cases h
  all_goals rfl

/-! ## Claims -/

/-- The fallback record `detect_stack` returns when no detector fires
(definitionally equal to the literal in `detect_stack`). -/
def unknownResult (repo : Repo) : StackResult :=
  { stack := "unknown",
    template := "unknown.yml.j2",
    context := {
      project_name := pyReplace (pyLower repo.name) " " "-",
      has_docker := _detect_docker repo,
      docker_tag := pyLower repo.name ++ ":latest",
      install_cmd := none,
      build_cmd := none,
      test_cmd := none,
      artifact_path := none } }

/-- Reduction of `detect_stack` on a valid directory to the resolver's match. -/
theorem detect_stack_some (repo : Repo) : detect_stack (some repo) =
    match STACK_PRIORITY.find? (fun si => si.2.2 repo) with
    | some si =>
      (_build_context repo si.1).map (fun ctx =>
        { stack := si.1, template := si.2.1, context := ctx })
    | none =>
      Except.ok {
        stack := "unknown",
        template := "unknown.yml.j2",
        context := {
          project_name := pyReplace (pyLower repo.name) " " "-",
          has_docker := _detect_docker repo,
          docker_tag := pyLower repo.name ++ ":latest",
          install_cmd := none,
          build_cmd := none,
          test_cmd := none,
          artifact_path := none } } := rfl

/-- C1: for every repository directory containing a file named `Dockerfile`
at its root, `detect_stack` returns stack "docker", regardless of which other
manifest files are also present. -/
theorem C1_root_dockerfile_docker (repo : Repo) (c : Option String)
    (hmem : Entry.file ["Dockerfile"] c ∈ repo.entries) :
    ∃ ctx, detect_stack (some repo) = Except.ok ⟨"docker", "docker.yml.j2", ctx⟩ := by
  have h1 : _has_file repo "Dockerfile" = true := by
    unfold _has_file
    rw [List.any_eq_true]
    exact ⟨Entry.file ["Dockerfile"] c, hmem, rfl⟩
  have hd : _detect_docker repo = true := by
    unfold _detect_docker
    rw [h1]
    rfl
  have hfind : STACK_PRIORITY.find? (fun si => si.2.2 repo) =
      some ("docker", "docker.yml.j2", _detect_docker) := by
    unfold STACK_PRIORITY
    exact List.find?_cons_of_pos _ hd
  exact ⟨_, by rw [detect_stack_some, hfind]; rfl⟩

/-- C1 witness: a repository with a root `Dockerfile` and a root `go.mod`
resolves to "docker". -/
theorem C1_root_dockerfile_docker_witness :
    (Entry.file ["Dockerfile"] (some "") ∈
      (⟨"My App", [Entry.file ["Dockerfile"] (some ""), Entry.file ["go.mod"] (some "")]⟩ : Repo).entries) ∧
    ∃ ctx, detect_stack (some ⟨"My App",
        [Entry.file ["Dockerfile"] (some ""), Entry.file ["go.mod"] (some "")]⟩) =
      Except.ok ⟨"docker", "docker.yml.j2", ctx⟩ :=
  ⟨by decide, C1_root_dockerfile_docker _ (some "") (by decide)⟩

/-- C2: with a root `package.json` and a root `bun.lockb` (and no Dockerfile),
`detect_stack` returns stack "node-bun" — in particular not "node-npm". -/
theorem C2_bun_beats_npm (repo : Repo) (cp cb : Option String)
    (hdock : _detect_docker repo = false)
    (_hpkg : Entry.file ["package.json"] cp ∈ repo.entries)
    (hbunf : Entry.file ["bun.lockb"] cb ∈ repo.entries) :
    ∃ ctx, detect_stack (some repo) = Except.ok ⟨"node-bun", "node-bun.yml.j2", ctx⟩ := by
  have hbun : _detect_node_bun repo = true := by
    unfold _detect_node_bun _file_exists
    rw [List.any_eq_true]
    exact ⟨Entry.file ["bun.lockb"] cb, hbunf, rfl⟩
  have hfind : STACK_PRIORITY.find? (fun si => si.2.2 repo) =
      some ("node-bun", "node-bun.yml.j2", _detect_node_bun) := by
    unfold STACK_PRIORITY
    rw [List.find?_cons_of_neg _ (by simp [hdock])]
    exact List.find?_cons_of_pos _ hbun
  exact ⟨_, by rw [detect_stack_some, hfind]; rfl⟩

/-- C2 witness: root `package.json` plus root `bun.lockb` resolves to
"node-bun". -/
theorem C2_bun_beats_npm_witness :
    (_detect_docker ⟨"w2", [Entry.file ["package.json"] (some ""), Entry.file ["bun.lockb"] (some "")]⟩ = false) ∧
    (Entry.file ["package.json"] (some "") ∈
      (⟨"w2", [Entry.file ["package.json"] (some ""), Entry.file ["bun.lockb"] (some "")]⟩ : Repo).entries) ∧
    (Entry.file ["bun.lockb"] (some "") ∈
      (⟨"w2", [Entry.file ["package.json"] (some ""), Entry.file ["bun.lockb"] (some "")]⟩ : Repo).entries) ∧
    ∃ ctx, detect_stack (some ⟨"w2",
        [Entry.file ["package.json"] (some ""), Entry.file ["bun.lockb"] (some "")]⟩) =
      Except.ok ⟨"node-bun", "node-bun.yml.j2", ctx⟩ :=
  ⟨by decide, by decide, by decide,
    C2_bun_beats_npm _ (some "") (some "") (by decide) (by decide) (by decide)⟩

/-- C3: for a repository resolved to "node-npm" (root `package.json` readable
with text `pkg`, no higher-priority Node stack matching, no Dockerfile),
`build_cmd` is present exactly when `pkg` contains the literal substring
`"build"` (with the double quotes), and `test_cmd` exactly when it contains
`"test"`. -/
theorem C3_node_npm_script_markers (repo : Repo) (pkg : String)
    (hdock : _detect_docker repo = false)
    (hbun : _detect_node_bun repo = false)
    (hpnpm : _detect_node_pnpm repo = false)
    (hyarn : _detect_node_yarn repo = false)
    (hnpm : _detect_node_npm repo = true)
    (hread : readRootFile repo "package.json" = some (some pkg)) :
    ∃ r, detect_stack (some repo) = Except.ok r ∧ r.stack = "node-npm" ∧
      (r.context.build_cmd ≠ none ↔ strContains pkg "\"build\"" = true) ∧
      (r.context.test_cmd ≠ none ↔ strContains pkg "\"test\"" = true) := by
  have hfind : STACK_PRIORITY.find? (fun si => si.2.2 repo) =
      some ("node-npm", "node-npm.yml.j2", _detect_node_npm) := by
    unfold STACK_PRIORITY
    rw [List.find?_cons_of_neg _ (by simp [hdock]),
        List.find?_cons_of_neg _ (by simp [hbun]),
        List.find?_cons_of_neg _ (by simp [hpnpm]),
        List.find?_cons_of_neg _ (by simp [hyarn])]
    exact List.find?_cons_of_pos _ hnpm
  have hbc : _build_context repo "node-npm" = Except.ok
      { project_name := pyReplace (pyReplace (pyLower repo.name) " " "-") "_" "-",
        has_docker := _detect_docker repo,
        docker_tag := pyLower repo.name ++ ":latest",
        install_cmd := some "npm ci --prefer-offline",
        build_cmd := if strContains pkg "\"build\"" then some "npm run build" else none,
        test_cmd := if strContains pkg "\"test\"" then some "npm test" else none,
        artifact_path := none } := by
    unfold _build_context
    rw [hread]
    rfl
  refine ⟨{ stack := "node-npm", template := "node-npm.yml.j2", context :=
      { project_name := pyReplace (pyReplace (pyLower repo.name) " " "-") "_" "-",
        has_docker := _detect_docker repo,
        docker_tag := pyLower repo.name ++ ":latest",
        install_cmd := some "npm ci --prefer-offline",
        build_cmd := if strContains pkg "\"build\"" then some "npm run build" else none,
        test_cmd := if strContains pkg "\"test\"" then some "npm test" else none,
        artifact_path := none } }, ?_, rfl, ?_, ?_⟩
  · rw [detect_stack_some, hfind]
    show (_build_context repo "node-npm").map (fun ctx =>
      ({ stack := "node-npm", template := "node-npm.yml.j2", context := ctx } : StackResult)) = _
    rw [hbc]
    rfl
  · cases hb : strContains pkg "\"build\"" <;> simp [hb]
  · cases ht : strContains pkg "\"test\"" <;> simp [ht]

/-- C3 witness: a node-npm repository whose `package.json` text contains
`"build"` but not `"test"` gets `build_cmd` and no `test_cmd`. -/
theorem C3_node_npm_script_markers_witness :
    (_detect_docker ⟨"w3", [Entry.file ["package.json"] (some "x \"build\" y")]⟩ = false) ∧
    (_detect_node_bun ⟨"w3", [Entry.file ["package.json"] (some "x \"build\" y")]⟩ = false) ∧
    (_detect_node_pnpm ⟨"w3", [Entry.file ["package.json"] (some "x \"build\" y")]⟩ = false) ∧
    (_detect_node_yarn ⟨"w3", [Entry.file ["package.json"] (some "x \"build\" y")]⟩ = false) ∧
    (_detect_node_npm ⟨"w3", [Entry.file ["package.json"] (some "x \"build\" y")]⟩ = true) ∧
    (readRootFile ⟨"w3", [Entry.file ["package.json"] (some "x \"build\" y")]⟩ "package.json" =
      some (some "x \"build\" y")) ∧
    ∃ r, detect_stack (some ⟨"w3", [Entry.file ["package.json"] (some "x \"build\" y")]⟩) =
        Except.ok r ∧ r.stack = "node-npm" ∧
      (r.context.build_cmd ≠ none ↔ strContains "x \"build\" y" "\"build\"" = true) ∧
      (r.context.test_cmd ≠ none ↔ strContains "x \"build\" y" "\"test\"" = true) :=
  ⟨by decide, by decide, by decide, by decide, by decide, by decide,
    C3_node_npm_script_markers ⟨"w3", [Entry.file ["package.json"] (some "x \"build\" y")]⟩
      "x \"build\" y" (by decide) (by decide) (by decide) (by decide)
      (by decide) (by decide)⟩

/-- C6: a root `pyproject.toml` containing `[tool.poetry]` in any casing and
no `[tool.uv]`/`[tool.pdm]` section, with no higher-priority stack evidence,
resolves to "python-poetry". -/
theorem C6_poetry_case_insensitive (repo : Repo) (s : String)
    (hdock : _detect_docker repo = false)
    (hbun : _detect_node_bun repo = false)
    (hpnpm : _detect_node_pnpm repo = false)
    (hyarn : _detect_node_yarn repo = false)
    (hnpm : _detect_node_npm repo = false)
    (hdeno : _detect_deno repo = false)
    (hread : readRootFile repo "pyproject.toml" = some (some s))
    (hpo : strContains (pyLower s) "[tool.poetry]" = true)
    (huv : strContains (pyLower s) "[tool.uv]" = false)
    (hpdm : strContains (pyLower s) "[tool.pdm]" = false) :
    ∃ ctx, detect_stack (some repo) =
      Except.ok ⟨"python-poetry", "python-poetry.yml.j2", ctx⟩ := by
  have hex : _file_exists repo "pyproject.toml" = true := readRootFile_file_exists hread
  have hcont : ∀ sub : String,
      _file_contains repo "pyproject.toml" sub = strContains (pyLower s) (pyLower sub) := by
    intro sub
    unfold _file_contains
    rw [hread]
  have huvd : _detect_python_uv repo = false := by
    unfold _detect_python_uv _pyproject_has_tool
    rw [hcont]
    show (_file_exists repo "pyproject.toml" && strContains (pyLower s) "[tool.uv]") = false
    rw [hex, huv]
    rfl
  have hpdmd : _detect_python_pdm repo = false := by
    unfold _detect_python_pdm _pyproject_has_tool
    rw [hcont]
    show (_file_exists repo "pyproject.toml" && strContains (pyLower s) "[tool.pdm]") = false
    rw [hex, hpdm]
    rfl
  have hpod : _detect_python_poetry repo = true := by
    unfold _detect_python_poetry _pyproject_has_tool
    rw [hcont]
    show (_file_exists repo "pyproject.toml" && strContains (pyLower s) "[tool.poetry]") = true
    rw [hex, hpo]
    rfl
  have hfind : STACK_PRIORITY.find? (fun si => si.2.2 repo) =
      some ("python-poetry", "python-poetry.yml.j2", _detect_python_poetry) := by
    unfold STACK_PRIORITY
    rw [List.find?_cons_of_neg _ (by simp [hdock]),
        List.find?_cons_of_neg _ (by simp [hbun]),
        List.find?_cons_of_neg _ (by simp [hpnpm]),
        List.find?_cons_of_neg _ (by simp [hyarn]),
        List.find?_cons_of_neg _ (by simp [hnpm]),
        List.find?_cons_of_neg _ (by simp [hdeno]),
        List.find?_cons_of_neg _ (by simp [huvd]),
        List.find?_cons_of_neg _ (by simp [hpdmd])]
    exact List.find?_cons_of_pos _ hpod
  exact ⟨_, by rw [detect_stack_some, hfind]; rfl⟩

/-- C6 witness: a `pyproject.toml` whose whole content is `[TOOL.POETRY]`
resolves to "python-poetry". -/
theorem C6_poetry_case_insensitive_witness :
    (_detect_docker ⟨"w6", [Entry.file ["pyproject.toml"] (some "[TOOL.POETRY]")]⟩ = false) ∧
    (readRootFile ⟨"w6", [Entry.file ["pyproject.toml"] (some "[TOOL.POETRY]")]⟩ "pyproject.toml" =
      some (some "[TOOL.POETRY]")) ∧
    (strContains (pyLower "[TOOL.POETRY]") "[tool.poetry]" = true) ∧
    (strContains (pyLower "[TOOL.POETRY]") "[tool.uv]" = false) ∧
    ∃ ctx, detect_stack (some ⟨"w6", [Entry.file ["pyproject.toml"] (some "[TOOL.POETRY]")]⟩) =
      Except.ok ⟨"python-poetry", "python-poetry.yml.j2", ctx⟩ :=
  ⟨by decide, by decide, by decide, by decide,
    C6_poetry_case_insensitive ⟨"w6", [Entry.file ["pyproject.toml"] (some "[TOOL.POETRY]")]⟩
      "[TOOL.POETRY]" (by decide) (by decide) (by decide) (by decide)
      (by decide) (by decide) (by decide) (by decide) (by decide) (by decide)⟩

/-- C5: when no stack predicate fires, `detect_stack` returns the normal
"unknown" result: fallback template key, all command fields absent, and
`project_name`, `has_docker`, `docker_tag` still populated. -/
theorem C5_unknown_fallback (repo : Repo)
    (hall : ∀ si ∈ STACK_PRIORITY, si.2.2 repo = false) :
    detect_stack (some repo) = Except.ok ⟨"unknown", "unknown.yml.j2",
      ⟨pyReplace (pyLower repo.name) " " "-", _detect_docker repo,
       pyLower repo.name ++ ":latest", none, none, none, none⟩⟩ := by
  have hfind : STACK_PRIORITY.find? (fun si => si.2.2 repo) = none := by
    rw [List.find?_eq_none]
    intro x hx
    simp [hall x hx]
  rw [detect_stack_some, hfind]

/-- C5 witness: an empty repository resolves to the "unknown" fallback. -/
theorem C5_unknown_fallback_witness :
    (∀ si ∈ STACK_PRIORITY, si.2.2 (⟨"empty", []⟩ : Repo) = false) ∧
    detect_stack (some ⟨"empty", []⟩) = Except.ok ⟨"unknown", "unknown.yml.j2",
      ⟨pyReplace (pyLower "empty") " " "-", _detect_docker ⟨"empty", []⟩,
       pyLower "empty" ++ ":latest", none, none, none, none⟩⟩ :=
  ⟨by decide, C5_unknown_fallback _ (by decide)⟩

/-- C4 counterexample: the unknown-stack fallback does not fold underscores.
A directory named "My_Cool_App" with no detectable stack resolves with
`project_name` "my_cool_app", which differs from the claimed "my-cool-app". -/
theorem C4_project_name_counterexample :
    detect_stack (some ⟨"My_Cool_App", []⟩) = Except.ok ⟨"unknown", "unknown.yml.j2",
      ⟨"my_cool_app", false, "my_cool_app:latest", none, none, none, none⟩⟩ ∧
    ("my_cool_app" : String) ≠ "my-cool-app" :=
  ⟨by rfl, by decide⟩

/-- C4 amended: for every resolution result with a recognized stack,
`project_name` is the directory name lowercased with spaces and underscores
folded to hyphens; for stack "unknown" only spaces are folded (underscores
are kept). -/
theorem C4_project_name_amended (repo : Repo) (r : StackResult)
    (h : detect_stack (some repo) = Except.ok r) :
    (r.stack = "unknown" →
      r.context.project_name = pyReplace (pyLower repo.name) " " "-") ∧
    (r.stack ≠ "unknown" →
      r.context.project_name =
        pyReplace (pyReplace (pyLower repo.name) " " "-") "_" "-") := by
  rw [detect_stack_some] at h
  cases hfind : STACK_PRIORITY.find? (fun si => si.2.2 repo) with
  | some si =>
    rw [hfind] at h
    have h2 : (_build_context repo si.1).map (fun ctx =>
        ({ stack := si.1, template := si.2.1, context := ctx } : StackResult)) = Except.ok r := h
    cases hbc : _build_context repo si.1 with
    | error e =>
      rw [hbc] at h2
      simp only [Except.map] at h2
      cases h2
    | ok ctx =>
      rw [hbc] at h2
      simp only [Except.map] at h2
      cases h2
      constructor
      · intro hu
        exact absurd hu (priority_fst_ne_unknown si (List.mem_of_find?_eq_some hfind))
      · intro _
        exact build_context_project_name hbc
  | none =>
    rw [hfind] at h
    have h2 : Except.ok (unknownResult repo) = Except.ok r := h
    cases h2
    constructor
    · intro _
      rfl
    · intro hne
      exact absurd rfl hne

/-- C4 amended witness: a directory named "My_Cool App" resolving to
"unknown" keeps the underscore, folding only the space. -/
theorem C4_project_name_amended_witness :
    (detect_stack (some ⟨"My_Cool App", []⟩) = Except.ok ⟨"unknown", "unknown.yml.j2",
      ⟨"my_cool-app", false, "my_cool app:latest", none, none, none, none⟩⟩) ∧
    ((("unknown" : String) = "unknown" →
      ("my_cool-app" : String) = pyReplace (pyLower "My_Cool App") " " "-") ∧
     (("unknown" : String) ≠ "unknown" →
      ("my_cool-app" : String) =
        pyReplace (pyReplace (pyLower "My_Cool App") " " "-") "_" "-")) :=
  ⟨by rfl,
    C4_project_name_amended ⟨"My_Cool App", []⟩
      ⟨"unknown", "unknown.yml.j2",
        ⟨"my_cool-app", false, "my_cool app:latest", none, none, none, none⟩⟩
      (by rfl)⟩

/-- C7: the claim says `detect_stack` never raises for an existing directory,
but a directory whose root `package.json` exists and whose bytes cannot be
read resolves to "node-npm" and then the unguarded `read_text` in
`_build_context` raises an OS error that is not the `InvalidInput`
(`ValueError`); an invalid path still raises `InvalidInput`. -/
theorem C7_read_failure_raises :
    detect_stack (some ⟨"r7", [Entry.file ["package.json"] none]⟩) =
      Except.error DetectError.osReadError ∧
    detect_stack none = Except.error DetectError.invalidInput :=
  ⟨by rfl, by rfl⟩

/-- C8: `_file_contains` does catch a read failure and treats the substring
as absent, but the `package.json` read performed while building the node-npm
context is unguarded, so the same kind of failure there propagates out of
`detect_stack` instead of being treated as "substring absent". -/
theorem C8_unguarded_package_json_read :
    (_file_contains ⟨"r8", [Entry.file ["pyproject.toml"] none, Entry.file ["package.json"] none]⟩
      "pyproject.toml" "[tool.poetry]" = false) ∧
    detect_stack (some ⟨"r8", [Entry.file ["pyproject.toml"] none, Entry.file ["package.json"] none]⟩) =
      Except.error DetectError.osReadError :=
  ⟨by rfl, by rfl⟩

/-- C9: for a repository containing exactly `.env`, `.env.local` and
`.env.example`, the danger list contains only `.env`: the pattern
`*.env.*[!example]` is an fnmatch single-character negated class, so
`.env.local` (final character `l`, which is in the class) does not match and
is missing from the danger list, contradicting the claim; the example list is
`[.env.example]` as claimed. -/
theorem C9_env_danger_patterns :
    ((find_env_files ⟨"r9", [Entry.file [".env"] (some ""), Entry.file [".env.local"] (some ""),
        Entry.file [".env.example"] (some "KEY=value")]⟩).danger = [[".env"]]) ∧
    ([".env.local"] ∉ (find_env_files ⟨"r9", [Entry.file [".env"] (some ""),
        Entry.file [".env.local"] (some ""),
        Entry.file [".env.example"] (some "KEY=value")]⟩).danger) ∧
    ((find_env_files ⟨"r9", [Entry.file [".env"] (some ""), Entry.file [".env.local"] (some ""),
        Entry.file [".env.example"] (some "KEY=value")]⟩).examples = [[".env.example"]]) :=
  ⟨by rfl, by decide, by rfl⟩

/-- C10: whenever `detect_stack` returns stack "unknown", the context's
`has_docker` field is `false` — the fallback is reached only after the docker
predicate, which also computes `has_docker`, evaluated false. -/
theorem C10_unknown_implies_no_docker (repo : Repo) (r : StackResult)
    (h : detect_stack (some repo) = Except.ok r)
    (hu : r.stack = "unknown") :
    r.context.has_docker = false := by
  rw [detect_stack_some] at h
  cases hfind : STACK_PRIORITY.find? (fun si => si.2.2 repo) with
  | some si =>
    rw [hfind] at h
    have h2 : (_build_context repo si.1).map (fun ctx =>
        ({ stack := si.1, template := si.2.1, context := ctx } : StackResult)) = Except.ok r := h
    cases hbc : _build_context repo si.1 with
    | error e =>
      rw [hbc] at h2
      simp only [Except.map] at h2
      cases h2
    | ok ctx =>
      rw [hbc] at h2
      simp only [Except.map] at h2
      cases h2
      exact absurd hu (priority_fst_ne_unknown si (List.mem_of_find?_eq_some hfind))
  | none =>
    rw [hfind] at h
    have h2 : Except.ok (unknownResult repo) = Except.ok r := h
    cases h2
    have hmem : ("docker", "docker.yml.j2", _detect_docker) ∈ STACK_PRIORITY := by
      unfold STACK_PRIORITY
      exact List.mem_cons_self _ _
    have hnd := List.find?_eq_none.mp hfind _ hmem
    show _detect_docker repo = false
    simpa using hnd

/-- C10 witness: the empty repository resolves to "unknown" with
`has_docker = false`. -/
theorem C10_unknown_implies_no_docker_witness :
    (detect_stack (some ⟨"e", []⟩) = Except.ok ⟨"unknown", "unknown.yml.j2",
      ⟨"e", false, "e:latest", none, none, none, none⟩⟩) ∧
    (⟨"unknown", "unknown.yml.j2",
      ⟨"e", false, "e:latest", none, none, none, none⟩⟩ : StackResult).context.has_docker = false :=
  ⟨by rfl,
    C10_unknown_implies_no_docker ⟨"e", []⟩
      ⟨"unknown", "unknown.yml.j2", ⟨"e", false, "e:latest", none, none, none, none⟩⟩
      (by rfl) rfl⟩

end CICD
